import Mathlib

/-!
Verification development for the meta-ads-agent repository.

Shallow embedding of the parts of the code base the statements below are
about:

* `src/automation/monitor.py` — `PerformanceMonitor._make_integrated_judgment`
  and the campaign-type configuration table;
* `src/agent/integrated_agent.py` — `IntegratedAgent._aggregate_insights`;
* `src/automation/actions.py` — `ActionQueue`, `ActionExecutor.execute`,
  `ActionExecutor._safety_check`, the direct-execution path;
* `src/automation/learning.py` — `ActionLearner.analyze_pending_actions`;
* the recommendation requester `PerformanceMonitor._generate_recommendations`.

Python floats are modelled as rationals (`ℚ`); Python dict lookups with a
default (`d.get(k, v)`) are modelled as `Option` fields read with `getD`;
timestamps are modelled as integers; the external collaborators (Meta API,
LLM) are explicit inputs.  Side effects on JSON stores are modelled as
explicit state passing.  Purely presentational string interpolation of
numbers into Japanese messages is represented by the structured kind of the
message (one constructor per `append` site in the source); no statement
below depends on message text.
-/

namespace Monitor

/-- One period's aggregated performance numbers, as read by
`_make_integrated_judgment` via `period.get(key, 0)`.  A missing period
(`{}` in the source) is the all-zero record. -/
structure Perf where
  spend : ℚ := 0
  cpf : ℚ := 0
  follows : ℚ := 0
  roas : ℚ := 0
  cpa : ℚ := 0
  ctr : ℚ := 0
  cvr : ℚ := 0
deriving DecidableEq, Repr

/-- The `periods` dict built by `_get_multi_period_performance`. -/
structure Periods where
  today : Perf := {}
  yesterday : Perf := {}
  last_7d : Perf := {}
  last_30d : Perf := {}
deriving DecidableEq, Repr

/-- The `thresholds` sub-dict of a `CAMPAIGN_TYPE_CONFIG` entry; every read
in the source is `thresholds.get(key, default)`, hence `Option` fields. -/
structure Thresholds where
  cpf_good : Option ℚ := none
  cpf_warning : Option ℚ := none
  cpf_critical : Option ℚ := none
  roas_good : Option ℚ := none
  roas_warning : Option ℚ := none
  roas_critical : Option ℚ := none
  cpa_good_ratio : Option ℚ := none
  cpa_warning_ratio : Option ℚ := none
  cpa_critical_ratio : Option ℚ := none
deriving DecidableEq, Repr

/-- One `CAMPAIGN_TYPE_CONFIG` entry (the fields `_make_integrated_judgment`
reads). -/
structure TypeConfig where
  primary_kpi : String
  is_traffic_campaign : Bool := false
  ignore_conversions : Bool := false
  thresholds : Thresholds := {}
deriving DecidableEq, Repr

/-- `CAMPAIGN_TYPE_CONFIG["OUTCOME_TRAFFIC"]` from `src/automation/monitor.py`. -/
def outcomeTrafficConfig : TypeConfig :=
  { primary_kpi := "cpf"
    is_traffic_campaign := true
    ignore_conversions := true
    thresholds := { cpf_good := some 50, cpf_warning := some 100, cpf_critical := some 200 } }

/-- The `targets` dict from the target manager; reads are `targets.get(...)`. -/
structure Targets where
  target_cpf : Option ℚ := none
  target_roas : Option ℚ := none
  target_cpa : Option ℚ := none
deriving DecidableEq, Repr

/-- The `budget_status` dict is computed elsewhere and only carried through
the judgment; the fields are irrelevant to the statements below. -/
structure BudgetStatus where
  status : String := "unknown"
  message : String := ""
deriving DecidableEq, Repr

/-- Structured identity of an `issues.append` site in
`_make_integrated_judgment` (stands for the interpolated Japanese message). -/
inductive IssueKind where
  | cpfCritical
  | cpfWarning
  | followZero
  | roasCritical
  | roasWarning
  | cpaCritical
  | cpaWarning
  | ctrDrop
  | cvrDrop
deriving DecidableEq, Repr

/-- An element of the `issues` list: `{"severity": ..., "message": ...}`. -/
structure Issue where
  severity : String
  kind : IssueKind
deriving DecidableEq, Repr

/-- Structured identity of a `positives.append` site. -/
inductive PosKind where
  | followsToday
  | cpfGood
  | roasAchieved
  | cpaGood
deriving DecidableEq, Repr

/-- An element of the `comparisons` list.  `otherKey` records which dict key
holds the reference value (`"yesterday"` or `"avg_7d"`); `basis` is the
`"comparison"` label when present, `direction` / `note` the optional extra
keys used by the ROAS and CTR entries. -/
structure Comparison where
  metric : String
  today : ℚ
  other : ℚ
  otherKey : String
  change_percent : ℚ
  basis : Option String := none
  direction : Option String := none
  note : Option String := none
deriving DecidableEq, Repr

/-- The judgment dict returned by `_make_integrated_judgment`. -/
structure Judgment where
  status : String
  severity : String
  issues : List Issue := []
  positives : List PosKind := []
  comparisons : List Comparison := []
  summary : String := ""
  budget_status : Option BudgetStatus := none
deriving DecidableEq, Repr

/-- `MIN_DAILY_SPEND` in `_make_integrated_judgment`. -/
def MIN_DAILY_SPEND : ℚ := 1000

/-- Issues, positives and comparisons accumulated by one block of
`_make_integrated_judgment`, in program order. -/
structure Findings where
  issues : List Issue := []
  positives : List PosKind := []
  comparisons : List Comparison := []
deriving DecidableEq, Repr

def Findings.append (a b : Findings) : Findings :=
  { issues := a.issues ++ b.issues
    positives := a.positives ++ b.positives
    comparisons := a.comparisons ++ b.comparisons }

/-- The `primary_kpi == "cpf"` block. -/
def cpfFindings (cfg : TypeConfig) (today avg_7d : Perf) (targets : Targets) : Findings :=
  let th := cfg.thresholds
  let cpf_today := today.cpf
  let cpf_7d := avg_7d.cpf
  let follows_today := today.follows
  let target_cpf := targets.target_cpf.getD (th.cpf_good.getD 50)
  let posFollows : List PosKind := if follows_today > 0 then [.followsToday] else []
  if cpf_today > 0 then
    let (iss, pos) : List Issue × List PosKind :=
      if cpf_today ≤ target_cpf then ([], [.cpfGood])
      else if cpf_today > th.cpf_critical.getD 200 then ([⟨"critical", .cpfCritical⟩], [])
      else if cpf_today > th.cpf_warning.getD 100 then ([⟨"warning", .cpfWarning⟩], [])
      else ([], [])
    let comps : List Comparison :=
      if cpf_7d > 0 then
        [{ metric := "CPF", today := cpf_today, other := cpf_7d, otherKey := "avg_7d"
           change_percent := (cpf_today - cpf_7d) / cpf_7d * 100
           basis := some "vs7日平均" }]
      else []
    { issues := iss, positives := posFollows ++ pos, comparisons := comps }
  else if follows_today = 0 ∧ today.spend > 0 then
    { issues := [⟨"warning", .followZero⟩], positives := posFollows }
  else
    { positives := posFollows }

/-- The `primary_kpi == "roas"` block. -/
def roasFindings (cfg : TypeConfig) (today avg_7d : Perf) (targets : Targets) : Findings :=
  let th := cfg.thresholds
  let roas_today := today.roas
  let roas_7d := avg_7d.roas
  let target_roas := targets.target_roas.getD (th.roas_good.getD 3)
  let (iss, pos) : List Issue × List PosKind :=
    if roas_today > 0 then
      if roas_today ≥ target_roas then ([], [.roasAchieved])
      else if roas_today < th.roas_critical.getD 1 then ([⟨"critical", .roasCritical⟩], [])
      else if roas_today < th.roas_warning.getD 2 then ([⟨"warning", .roasWarning⟩], [])
      else ([], [])
    else ([], [])
  let comps : List Comparison :=
    if roas_7d > 0 ∧ roas_today > 0 then
      let roas_change := (roas_today - roas_7d) / roas_7d * 100
      [{ metric := "ROAS", today := roas_today, other := roas_7d, otherKey := "avg_7d"
         change_percent := roas_change
         direction := some (if roas_change > 0 then "up" else "down") }]
    else []
  { issues := iss, positives := pos, comparisons := comps }

/-- The `primary_kpi == "cpa"` block.  `targets.get("target_cpa")` has no
default and is tested for Python truthiness (`if target_cpa and ...`). -/
def cpaFindings (cfg : TypeConfig) (today yesterday avg_7d : Perf) (targets : Targets) : Findings :=
  let th := cfg.thresholds
  let cpa_today := today.cpa
  let cpa_yesterday := yesterday.cpa
  let cpa_7d := avg_7d.cpa
  let target_cpa := targets.target_cpa.getD 0
  let (iss, pos) : List Issue × List PosKind :=
    if target_cpa ≠ 0 ∧ cpa_today > 0 then
      let cpa_ratio := cpa_today / target_cpa
      if cpa_ratio ≤ th.cpa_good_ratio.getD (7/10) then ([], [.cpaGood])
      else if cpa_ratio ≥ th.cpa_critical_ratio.getD (13/10) then ([⟨"critical", .cpaCritical⟩], [])
      else if cpa_ratio ≥ th.cpa_warning_ratio.getD 1 then ([⟨"warning", .cpaWarning⟩], [])
      else ([], [])
    else ([], [])
  let compsY : List Comparison :=
    if cpa_yesterday > 0 ∧ cpa_today > 0 then
      [{ metric := "CPA", today := cpa_today, other := cpa_yesterday, otherKey := "yesterday"
         change_percent := (cpa_today - cpa_yesterday) / cpa_yesterday * 100
         basis := some "vs昨日" }]
    else []
  let comps7 : List Comparison :=
    if cpa_7d > 0 ∧ cpa_today > 0 then
      [{ metric := "CPA", today := cpa_today, other := cpa_7d, otherKey := "avg_7d"
         change_percent := (cpa_today - cpa_7d) / cpa_7d * 100
         basis := some "vs7日平均" }]
    else []
  { issues := iss, positives := pos, comparisons := compsY ++ comps7 }

/-- Dispatch on `primary_kpi` (`if/elif/elif`, anything else adds nothing). -/
def kpiFindings (cfg : TypeConfig) (today yesterday avg_7d : Perf) (targets : Targets) : Findings :=
  if cfg.primary_kpi = "cpf" then cpfFindings cfg today avg_7d targets
  else if cfg.primary_kpi = "roas" then roasFindings cfg today avg_7d targets
  else if cfg.primary_kpi = "cpa" then cpaFindings cfg today yesterday avg_7d targets
  else {}

/-- The shared CTR / CVR / spend comparison section of
`_make_integrated_judgment`. -/
def commonFindings (cfg : TypeConfig) (today yesterday avg_7d : Perf) : Findings :=
  let ctrF : Findings :=
    if yesterday.ctr > 0 ∧ today.ctr > 0 then
      let ctr_change := (today.ctr - yesterday.ctr) / yesterday.ctr * 100
      { issues := if ¬cfg.is_traffic_campaign ∧ ctr_change < -50 then [⟨"warning", .ctrDrop⟩] else []
        comparisons :=
          [{ metric := "CTR", today := today.ctr, other := yesterday.ctr, otherKey := "yesterday"
             change_percent := ctr_change, basis := some "vs昨日"
             note := some (if cfg.is_traffic_campaign then "（トラフィックでは参考値）" else "") }] }
    else {}
  let cvrF : Findings :=
    if ¬cfg.ignore_conversions then
      if yesterday.cvr > 0 ∧ today.cvr > 0 then
        let cvr_change := (today.cvr - yesterday.cvr) / yesterday.cvr * 100
        { issues := if cvr_change < -50 then [⟨"warning", .cvrDrop⟩] else []
          comparisons :=
            [{ metric := "CVR", today := today.cvr, other := yesterday.cvr, otherKey := "yesterday"
               change_percent := cvr_change, basis := some "vs昨日" }] }
      else {}
    else {}
  let spendY : Findings :=
    if yesterday.spend > 0 ∧ today.spend > 0 then
      { comparisons :=
          [{ metric := "消化", today := today.spend, other := yesterday.spend, otherKey := "yesterday"
             change_percent := (today.spend - yesterday.spend) / yesterday.spend * 100
             basis := some "vs昨日" }] }
    else {}
  let spend7 : Findings :=
    if avg_7d.spend > 0 ∧ today.spend > 0 then
      { comparisons :=
          [{ metric := "消化", today := today.spend, other := avg_7d.spend, otherKey := "avg_7d"
             change_percent := (today.spend - avg_7d.spend) / avg_7d.spend * 100
             basis := some "vs7日平均" }] }
    else {}
  (((ctrF.append cvrF).append spendY).append spend7)

/-- `len([i for i in issues if i.get("severity") == "critical"])`. -/
def criticalCount (issues : List Issue) : ℕ :=
  (issues.filter (fun i => i.severity == "critical")).length

/-- `len([i for i in issues if i.get("severity") == "warning"])`. -/
def warningCount (issues : List Issue) : ℕ :=
  (issues.filter (fun i => i.severity == "warning")).length

/-- The final classification section of `_make_integrated_judgment`. -/
def classify (issues : List Issue) (positives : List PosKind)
    (comparisons : List Comparison) (budget_status : BudgetStatus) : Judgment :=
  let critical_count := criticalCount issues
  let warning_count := warningCount issues
  let positive_count := positives.length
  let sss : String × String × String :=
    if critical_count > 0 then
      ("critical", "high", "🔴 要対応: " ++ toString critical_count ++ "件の重大な問題")
    else if positive_count > 0 ∧ positive_count > warning_count then
      ("opportunity", "none", "🟢 好調: " ++ toString positive_count ++ "件のポジティブ要素")
    else if warning_count > 0 ∧ warning_count > positive_count then
      ("warning", "medium", "🟡 注意: " ++ toString warning_count ++ "件の確認事項")
    else
      ("normal", "none", "✅ 正常稼働中")
  { status := sss.1, severity := sss.2.1, summary := sss.2.2
    issues := issues, positives := positives, comparisons := comparisons
    budget_status := some budget_status }

/-- `PerformanceMonitor._make_integrated_judgment` (`src/automation/monitor.py`).
`campaign_name` and `objective` are not read by the logic and are omitted;
`periods["last_30d"]` is fetched by the source but never read. -/
def make_integrated_judgment (cfg : TypeConfig) (periods : Periods)
    (budget_status : BudgetStatus) (targets : Targets) : Judgment :=
  let today := periods.today
  let spend_today := today.spend
  if spend_today < MIN_DAILY_SPEND then
    { status := "insufficient_data", severity := "none"
      issues := [], positives := [], comparisons := []
      summary := "消化が少ないため分析スキップ" }
  else
    let f := (kpiFindings cfg today periods.yesterday periods.last_7d targets).append
      (commonFindings cfg today periods.yesterday periods.last_7d)
    classify f.issues f.positives f.comparisons budget_status

end Monitor

namespace Agent

/-- One raw insight record as read by `_aggregate_insights` via
`i.get(key, 0)` with `float(...)` / `int(...)` conversion. -/
structure InsightRow where
  spend : ℚ := 0
  impressions : ℤ := 0
  clicks : ℤ := 0
  conversions : ℤ := 0
  conversion_value : ℚ := 0
  reach : ℤ := 0
  follows : ℤ := 0
  page_engagements : ℤ := 0
  link_clicks : ℤ := 0
deriving DecidableEq, Repr

/-- The aggregated `total` dict produced by `_aggregate_insights`. -/
structure AggregatedPerf where
  spend : ℚ
  impressions : ℤ
  clicks : ℤ
  conversions : ℤ
  conversion_value : ℚ
  reach : ℤ
  follows : ℤ
  page_engagements : ℤ
  link_clicks : ℤ
  ctr : ℚ
  cpm : ℚ
  cpc : ℚ
  cvr : ℚ
  cpa : ℚ
  roas : ℚ
  cpf : ℚ
deriving DecidableEq, Repr

/-- Python's `round(x, d)` on the exact rational value.  (CPython rounds
half-to-even on binary floats; this model rounds half away from even ties —
the difference only concerns exact ties and no statement below depends on
tie behaviour.) -/
def roundTo (d : ℕ) (x : ℚ) : ℚ := ((round (x * 10 ^ d) : ℤ) : ℚ) / (10 ^ d : ℚ)

/-- `IntegratedAgent._aggregate_insights` (`src/agent/integrated_agent.py`).
`none` models the `{}` returned for an empty input list. -/
def aggregate_insights (insights_list : List InsightRow) : Option AggregatedPerf :=
  if insights_list = [] then none
  else
    let spend : ℚ := (insights_list.map (·.spend)).sum
    let impressions : ℤ := (insights_list.map (·.impressions)).sum
    let clicks : ℤ := (insights_list.map (·.clicks)).sum
    let conversions : ℤ := (insights_list.map (·.conversions)).sum
    let conversion_value : ℚ := (insights_list.map (·.conversion_value)).sum
    let reach : ℤ := (insights_list.map (·.reach)).sum
    let follows : ℤ := (insights_list.map (·.follows)).sum
    let page_engagements : ℤ := (insights_list.map (·.page_engagements)).sum
    let link_clicks : ℤ := (insights_list.map (·.link_clicks)).sum
    let (ctr, cpm) : ℚ × ℚ :=
      if impressions > 0 then
        (roundTo 2 ((clicks : ℚ) / (impressions : ℚ) * 100),
         roundTo 0 (spend / (impressions : ℚ) * 1000))
      else (0, 0)
    let (cpc, cvr) : ℚ × ℚ :=
      if clicks > 0 then
        (roundTo 0 (spend / (clicks : ℚ)),
         roundTo 2 ((conversions : ℚ) / (clicks : ℚ) * 100))
      else (0, 0)
    let cpa : ℚ := if conversions > 0 then roundTo 0 (spend / (conversions : ℚ)) else 0
    let roas : ℚ :=
      if spend > 0 ∧ conversion_value > 0 then roundTo 2 (conversion_value / spend) else 0
    let cpf : ℚ := if follows > 0 then roundTo 2 (spend / (follows : ℚ)) else 0
    some { spend := spend, impressions := impressions, clicks := clicks
           conversions := conversions, conversion_value := conversion_value
           reach := reach, follows := follows, page_engagements := page_engagements
           link_clicks := link_clicks
           ctr := ctr, cpm := cpm, cpc := cpc, cvr := cvr, cpa := cpa, roas := roas, cpf := cpf }

end Agent

namespace Actions

/-- The `params` sub-dict of an action; every read in the source is a
`params.get(...)`, so all fields are optional. -/
structure Params where
  increase_percent : Option ℚ := none
  new_budget : Option ℚ := none
  current_budget : Option ℚ := none
  change_percent : Option ℚ := none
  new_status : Option String := none
deriving DecidableEq, Repr

/-- An action dict as consumed by `ActionExecutor`. -/
structure Action where
  type : String
  account_id : Option String := none
  campaign_id : Option String := none
  campaign_name : Option String := none
  params : Params := {}
  reason : Option String := none
deriving DecidableEq, Repr

/-- `safety_limits["max_budget_increase_percent"]`. -/
def max_budget_increase_percent : ℚ := 20

/-- `safety_limits["max_daily_budget"]`. -/
def max_daily_budget : ℚ := 500000

/-- Structured content of the `reason` string returned by a failing
`_safety_check`. -/
inductive SafetyReason where
  | increaseTooLarge (increase_percent : ℚ)
  | budgetTooLarge (new_budget : ℚ)
deriving DecidableEq, Repr

/-- `ActionExecutor._safety_check` (`src/automation/actions.py:233`).
`none` is `{"passed": True}`; `some r` is `{"passed": False, "reason": r}`. -/
def safety_check (action : Action) : Option SafetyReason :=
  if action.type = "budget_increase" then
    let increase_percent := action.params.increase_percent.getD 0
    if increase_percent > max_budget_increase_percent then
      some (.increaseTooLarge increase_percent)
    else
      let new_budget := action.params.new_budget.getD 0
      if new_budget > max_daily_budget then some (.budgetTooLarge new_budget)
      else none
  else none

/-- A mutating call to the ad-platform collaborator
(`update_campaign_budget` / `update_campaign_status`). -/
inductive PlatformCall where
  | updateBudget (campaign_id : String) (daily_budget : ℤ)
  | updateStatus (campaign_id : String) (status : String)
deriving DecidableEq, Repr

/-- Structured content of the `message` field of an execution result. -/
inductive ExecMsg where
  | notifyOnlySkip
  | safetyFailed (reason : SafetyReason)
  | unsupportedType (t : String)
  | metaNotConnected
  | missingCampaignOrBudget
  | managerFetchFailed
  | budgetChanged (new_budget : ℚ)
  | budgetUpdateFailed
  | budgetChangeError
  | missingCampaignId
  | statusChanged (status : String)
  | statusUpdateFailed
  | statusChangeError
  | actionNotFound (action_id : String)
deriving DecidableEq, Repr

/-- An execution-result dict (`success` / `executed` / structured message). -/
structure ExecResult where
  success : Bool
  executed : Bool := false
  message : ExecMsg
deriving DecidableEq, Repr

/-- The executor's environment: presence/health of the integrated agent and
the responses of the ad-platform collaborator.  `none` in a result models an
exception raised by the client (caught by the source's `except` blocks). -/
structure AgentEnv where
  agentPresent : Bool := true
  metaInitialized : Bool := true
  managersOk : Bool := true
  updateBudgetResult : Option Bool := some true
  updateStatusResult : Option Bool := some true
deriving DecidableEq, Repr

/-- Python `int(q)` (truncation toward zero). -/
def pyInt (q : ℚ) : ℤ := Int.tdiv q.num (q.den : ℤ)

/-- `ActionExecutor._execute_budget_change`.  The `increase` argument is
accepted by the source but never read.  The returned list records every
ad-platform update call made on the run (the baseline insight fetch and the
learner recording are reads/local state, not platform updates). -/
def execute_budget_change (env : AgentEnv) (action : Action) (_increase : Bool) :
    ExecResult × List PlatformCall :=
  if ¬(env.agentPresent ∧ env.metaInitialized) then
    ({ success := false, message := .metaNotConnected }, [])
  else
    let campaign_id := action.campaign_id.getD ""
    let new_budget := action.params.new_budget.getD 0
    if campaign_id = "" ∨ new_budget = 0 then
      ({ success := false, message := .missingCampaignOrBudget }, [])
    else if ¬env.managersOk then
      ({ success := false, message := .managerFetchFailed }, [])
    else
      let call := PlatformCall.updateBudget campaign_id (pyInt new_budget)
      match env.updateBudgetResult with
      | some true => ({ success := true, executed := true, message := .budgetChanged new_budget }, [call])
      | some false => ({ success := false, message := .budgetUpdateFailed }, [call])
      | none => ({ success := false, message := .budgetChangeError }, [call])

/-- `ActionExecutor._execute_status_change`. -/
def execute_status_change (env : AgentEnv) (action : Action) (status : String) :
    ExecResult × List PlatformCall :=
  if ¬(env.agentPresent ∧ env.metaInitialized) then
    ({ success := false, message := .metaNotConnected }, [])
  else
    let campaign_id := action.campaign_id.getD ""
    let new_status := action.params.new_status.getD status
    if campaign_id = "" then
      ({ success := false, message := .missingCampaignId }, [])
    else if ¬env.managersOk then
      ({ success := false, message := .managerFetchFailed }, [])
    else
      let call := PlatformCall.updateStatus campaign_id new_status
      match env.updateStatusResult with
      | some true => ({ success := true, executed := true, message := .statusChanged new_status }, [call])
      | some false => ({ success := false, message := .statusUpdateFailed }, [call])
      | none => ({ success := false, message := .statusChangeError }, [call])

/-- `ActionExecutor.execute` (`src/automation/actions.py:176`). -/
def execute (mode : String) (env : AgentEnv) (action : Action) :
    ExecResult × List PlatformCall :=
  if mode = "notify_only" then
    ({ success := true, executed := false, message := .notifyOnlySkip }, [])
  else
    match safety_check action with
    | some r => ({ success := false, message := .safetyFailed r }, [])
    | none =>
      if action.type = "budget_change" then execute_budget_change env action true
      else if action.type = "budget_increase" then execute_budget_change env action true
      else if action.type = "budget_decrease" then execute_budget_change env action false
      else if action.type = "status_change" then
        execute_status_change env action (action.params.new_status.getD "PAUSED")
      else if action.type = "pause" then execute_status_change env action "PAUSED"
      else if action.type = "resume" then execute_status_change env action "ACTIVE"
      else ({ success := false, message := .unsupportedType action.type }, [])

/-- A queued-action dict (`ActionQueue.add_action`). -/
structure QueuedAction where
  id : String
  created_at : String
  status : String
  action : Action
  approved_at : Option String := none
  rejected_at : Option String := none
  reject_reason : Option String := none
  executed_at : Option String := none
  result : Option ExecResult := none
deriving DecidableEq, Repr

/-- An entry of the history store: either a queued action moved there by
`approve`/`reject`, or the `{"action", "result", "executed_at",
"type": "direct_execution"}` record written by `add_to_history`. -/
inductive HistoryEntry where
  | queued (q : QueuedAction)
  | direct (action : Action) (result : ExecResult) (executed_at : String)
deriving DecidableEq, Repr

/-- The two stores of `ActionQueue` (`pending_actions.json`,
`action_history.json`). -/
structure QueueState where
  pending : List QueuedAction := []
  history : List HistoryEntry := []
deriving DecidableEq, Repr

/-- `ActionQueue.add_action`; the generated `uuid4` prefix and the
`datetime.now()` timestamp are caller-supplied inputs. -/
def add_action (now action_id : String) (action : Action) (s : QueueState) :
    String × QueueState :=
  (action_id,
   { s with pending := s.pending ++
      [{ id := action_id, created_at := now, status := "pending", action := action }] })

/-- The loop body of `ActionQueue.approve`: find the first pending entry
with the given id, stamp it approved, and remove it from the list. -/
def approveFirst (now action_id : String) :
    List QueuedAction → Option (QueuedAction × List QueuedAction)
  | [] => none
  | q :: rest =>
    if q.id = action_id then
      some ({ q with status := "approved", approved_at := some now }, rest)
    else
      (approveFirst now action_id rest).map (fun (a, rest') => (a, q :: rest'))

/-- `ActionQueue.approve` (`src/automation/actions.py:66`). -/
def approve (now action_id : String) (s : QueueState) :
    Option QueuedAction × QueueState :=
  match approveFirst now action_id s.pending with
  | some (a, pending') =>
    (some a, { pending := pending', history := s.history ++ [.queued a] })
  | none => (none, s)

/-- The loop body of `ActionQueue.reject`. -/
def rejectFirst (now action_id reason : String) :
    List QueuedAction → Option (QueuedAction × List QueuedAction)
  | [] => none
  | q :: rest =>
    if q.id = action_id then
      some ({ q with status := "rejected", rejected_at := some now, reject_reason := some reason }, rest)
    else
      (rejectFirst now action_id reason rest).map (fun (a, rest') => (a, q :: rest'))

/-- `ActionQueue.reject` (`src/automation/actions.py:85`). -/
def reject (now action_id reason : String) (s : QueueState) :
    Option QueuedAction × QueueState :=
  match rejectFirst now action_id reason s.pending with
  | some (a, pending') =>
    (some a, { pending := pending', history := s.history ++ [.queued a] })
  | none => (none, s)

/-- `ActionQueue.add_to_history` (direct-execution records). -/
def add_to_history (action : Action) (result : ExecResult) (executed_at : String)
    (s : QueueState) : QueueState :=
  { s with history := s.history ++ [.direct action result executed_at] }

/-- `ActionQueue.mark_executed`: patch the first history entry with the given
id.  The source evaluates `entry["id"]` on every entry it walks past; a
direct-execution record has no `"id"` key, so reaching one raises `KeyError`
— modelled as `none`. -/
def mark_executed (now action_id : String) (res : ExecResult) :
    List HistoryEntry → Option (List HistoryEntry)
  | [] => some []
  | .queued q :: rest =>
    if q.id = action_id then
      some (.queued { q with status := "executed", executed_at := some now, result := some res } :: rest)
    else
      (mark_executed now action_id res rest).map (.queued q :: ·)
  | .direct _ _ _ :: _ => none

/-- `ActionExecutor.approve_action` (`src/automation/actions.py:416`):
approve, then execute, then record the result.  `none` models the
uncaught `KeyError` case of `mark_executed`. -/
def approve_action (mode : String) (env : AgentEnv) (now action_id : String)
    (s : QueueState) : Option (ExecResult × List PlatformCall × QueueState) :=
  match approve now action_id s with
  | (none, s') => some ({ success := false, message := .actionNotFound action_id }, [], s')
  | (some a, s') =>
    let (result, calls) := execute mode env a.action
    match mark_executed now action_id result s'.history with
    | some history' => some (result, calls, { s' with history := history' })
    | none => none

/-- `ActionExecutor.reject_action`. -/
def reject_action (now action_id reason : String) (s : QueueState) :
    ExecResult × QueueState :=
  match reject now action_id reason s with
  | (none, s') => ({ success := false, message := .actionNotFound action_id }, s')
  | (some _, s') => ({ success := true, message := .actionNotFound action_id }, s')

/-- `ActionExecutor.execute_budget_change_direct`
(`src/automation/actions.py:521`): build a `budget_change` action, run the
safety check, execute, record to history. -/
def execute_budget_change_direct (env : AgentEnv) (now : String)
    (campaign_id : String) (new_budget : ℤ) (account_id : String)
    (s : QueueState) : ExecResult × List PlatformCall × QueueState :=
  let action : Action :=
    { type := "budget_change", account_id := some account_id,
      campaign_id := some campaign_id,
      params := { new_budget := some (new_budget : ℚ) } }
  match safety_check action with
  | some r => ({ success := false, message := .safetyFailed r }, [], s)
  | none =>
    let (result, calls) := execute_budget_change env action true
    (result, calls, add_to_history action result now s)

/-- `ActionExecutor.execute_status_change_direct`
(`src/automation/actions.py:568`): build a `status_change` action, execute,
record to history (no safety check — status changes carry no numeric
bound). -/
def execute_status_change_direct (env : AgentEnv) (now : String)
    (campaign_id new_status account_id : String) (s : QueueState) :
    ExecResult × List PlatformCall × QueueState :=
  let action : Action :=
    { type := "status_change", account_id := some account_id,
      campaign_id := some campaign_id,
      params := { new_status := some new_status } }
  let (result, calls) := execute_status_change env action new_status
  (result, calls, add_to_history action result now s)

/-- One executor-level operation on the queue stores: the entry points of
`ActionExecutor` that mutate `ActionQueue` state (`propose_action`,
`approve_action`, `reject_action` and the two direct-execution paths). -/
inductive QueueOp where
  | propose (now action_id : String) (action : Action)
  | approveById (mode : String) (env : AgentEnv) (now action_id : String)
  | rejectById (now action_id reason : String)
  | directBudget (env : AgentEnv) (now campaign_id : String) (new_budget : ℤ)
      (account_id : String)
  | directStatus (env : AgentEnv) (now campaign_id new_status account_id : String)

/-- The state transition of one executor-level operation (`none` models the
uncaught `KeyError` of `mark_executed` walking past a direct-execution
history record). -/
def applyOp : QueueOp → QueueState → Option QueueState
  | .propose now action_id action, s => some (add_action now action_id action s).2
  | .approveById mode env now action_id, s =>
    (approve_action mode env now action_id s).map (·.2.2)
  | .rejectById now action_id reason, s =>
    some (reject_action now action_id reason s).2
  | .directBudget env now campaign_id new_budget account_id, s =>
    some (execute_budget_change_direct env now campaign_id new_budget account_id s).2.2
  | .directStatus env now campaign_id new_status account_id, s =>
    some (execute_status_change_direct env now campaign_id new_status account_id s).2.2

/-- The ids carried by the queued entries of a history store
(direct-execution records carry no id). -/
def historyQueuedIds (h : List HistoryEntry) : List String :=
  h.filterMap (fun e => match e with
    | .queued q => some q.id
    | .direct _ _ _ => none)

/-- All queued-action ids of a queue state, pending first. -/
def queuedIds (s : QueueState) : List String :=
  s.pending.map QueuedAction.id ++ historyQueuedIds s.history

/-- Shape of an entry sitting in the pending queue (as produced by
`add_action`). -/
def PendingOk (q : QueuedAction) : Prop :=
  q.status = "pending" ∧ q.approved_at = none ∧ q.rejected_at = none ∧
  q.executed_at = none ∧ q.result = none

/-- Shape of a queued history entry: it got there by `approve` (and possibly
the subsequent `mark_executed` patch) or by `reject` — the `executed` status
is carried only by entries that were approved and had an execution result
recorded, never by rejected ones. -/
def HistoryQueuedOk (q : QueuedAction) : Prop :=
  (q.status = "approved" ∧ q.approved_at.isSome ∧ q.rejected_at = none ∧
    q.executed_at = none ∧ q.result = none) ∨
  (q.status = "rejected" ∧ q.rejected_at.isSome ∧ q.approved_at = none ∧
    q.executed_at = none ∧ q.result = none) ∨
  (q.status = "executed" ∧ q.approved_at.isSome ∧ q.rejected_at = none ∧
    q.executed_at.isSome ∧ q.result.isSome)

/-- Well-formedness of the queue stores: distinct queued ids, pending
entries still pristine, and every queued history entry approved, rejected or
approved-then-executed as in `HistoryQueuedOk`. -/
def QueueWF (s : QueueState) : Prop :=
  (queuedIds s).Nodup ∧
  (∀ q ∈ s.pending, PendingOk q) ∧
  (∀ q : QueuedAction, HistoryEntry.queued q ∈ s.history → HistoryQueuedOk q)

/-- Side condition of an operation: `propose` models `uuid4` by a
caller-supplied id, which must be fresh. -/
def opIdFresh : QueueOp → QueueState → Prop
  | .propose _ action_id _, s => action_id ∉ queuedIds s
  | _, _ => True

end Actions

namespace Learning

/-- The metric snapshot read with `.get(key, 0)` from baselines and from
`get_campaign_insights` results. -/
structure Metrics where
  spend : ℚ := 0
  cpa : ℚ := 0
  roas : ℚ := 0
  ctr : ℚ := 0
  cpf : ℚ := 0
deriving DecidableEq, Repr

/-- A pending learning record (`record_action_with_baseline`); timestamps
are modelled as integers. -/
structure LearningRecord where
  id : String
  action : Actions.Action
  campaign_id : String
  account_id : String
  executed_at : ℤ
  analyze_after : ℤ
  baseline : Metrics
  status : String := "pending_analysis"
deriving DecidableEq, Repr

/-- `ActionLearner.record_action_with_baseline`
(`src/automation/learning.py:52`): `analyze_after = now + 24h` (24h = one
time unit here is a second, so 86400). -/
def record_action_with_baseline (now : ℤ) (record_id : String)
    (action : Actions.Action) (campaign_id account_id : String)
    (baseline_metrics : Metrics) : LearningRecord :=
  { id := record_id, action := action, campaign_id := campaign_id
    account_id := account_id, executed_at := now
    analyze_after := now + 86400, baseline := baseline_metrics }

/-- Structured content of the `effect_detail` message. -/
inductive EffectDetail where
  | cpaImproved
  | cpaWorsened
  | roasImproved
  | roasWorsened
  | cpfImproved
  | cpfWorsened
  | budgetCutCpaHeld
  | pausedSpend
  | noClearEffect
deriving DecidableEq, Repr

/-- `{verdict, detail, confidence}` returned by `_determine_effect`. -/
structure Effect where
  verdict : String
  detail : EffectDetail
  confidence : ℚ
deriving DecidableEq, Repr

/-- The local `calc_change` helper of `_determine_effect`. -/
def calcChange (before after : ℚ) : ℚ :=
  if before > 0 then (after - before) / before * 100 else 0

/-- `ActionLearner._determine_effect` (`src/automation/learning.py:181`).
The source's early `return`s inside nested guards are flattened into an
`if`/`else if` chain with the guards conjoined. -/
def determine_effect (action_type : String) (baseline current : Metrics) : Effect :=
  let cpa_change := calcChange baseline.cpa current.cpa
  let roas_change := calcChange baseline.roas current.roas
  let cpf_change := calcChange baseline.cpf current.cpf
  if action_type = "budget_increase" ∨ action_type = "budget_change" then
    if current.cpa > 0 ∧ baseline.cpa > 0 ∧ cpa_change < -10 then
      ⟨"improved", .cpaImproved, 8/10⟩
    else if current.cpa > 0 ∧ baseline.cpa > 0 ∧ cpa_change > 20 then
      ⟨"worsened", .cpaWorsened, 8/10⟩
    else if current.roas > 0 ∧ baseline.roas > 0 ∧ roas_change > 10 then
      ⟨"improved", .roasImproved, 8/10⟩
    else if current.roas > 0 ∧ baseline.roas > 0 ∧ roas_change < -20 then
      ⟨"worsened", .roasWorsened, 8/10⟩
    else if current.cpf > 0 ∧ baseline.cpf > 0 ∧ cpf_change < -10 then
      ⟨"improved", .cpfImproved, 8/10⟩
    else if current.cpf > 0 ∧ baseline.cpf > 0 ∧ cpf_change > 20 then
      ⟨"worsened", .cpfWorsened, 8/10⟩
    else ⟨"neutral", .noClearEffect, 1/2⟩
  else if action_type = "budget_decrease" then
    if current.cpa > 0 ∧ baseline.cpa > 0 ∧ cpa_change < 10 then
      ⟨"improved", .budgetCutCpaHeld, 7/10⟩
    else ⟨"neutral", .noClearEffect, 1/2⟩
  else if action_type = "pause" then
    ⟨"improved", .pausedSpend, 9/10⟩
  else ⟨"neutral", .noClearEffect, 1/2⟩

/-- An analyzed learning entry (appended to `action_learnings.json`). -/
structure LearningResult where
  id : String
  action : Actions.Action
  campaign_id : String
  account_id : String
  executed_at : ℤ
  analyzed_at : ℤ
  baseline : Metrics
  after : Metrics
  effect : String
  effect_detail : EffectDetail
  confidence : ℚ
deriving DecidableEq, Repr

/-- The learner's environment: agent health and the insight-fetch
collaborator.  `fetchInsights c = none` models both an empty/falsy insights
result and an exception caught by the source's `except` block. -/
structure LearnEnv where
  agentPresent : Bool := true
  metaInitialized : Bool := true
  managersOk : Bool := true
  fetchInsights : String → Option Metrics := fun _ => none

/-- `ActionLearner._analyze_action_effect` (`src/automation/learning.py:126`). -/
def analyze_action_effect (env : LearnEnv) (now : ℤ) (record : LearningRecord) :
    Option LearningResult :=
  if ¬env.managersOk then none
  else
    match env.fetchInsights record.campaign_id with
    | none => none
    | some current =>
      let effect := determine_effect record.action.type record.baseline current
      some { id := record.id, action := record.action
             campaign_id := record.campaign_id, account_id := record.account_id
             executed_at := record.executed_at, analyzed_at := now
             baseline := record.baseline, after := current
             effect := effect.verdict, effect_detail := effect.detail
             confidence := effect.confidence }

/-- The two stores of `ActionLearner` (`action_learnings.json`,
`pending_analysis.json`). -/
structure LearnerState where
  learnings : List LearningResult := []
  pending : List LearningRecord := []
deriving Repr

/-- The `for record in self.pending` loop of `analyze_pending_actions`:
returns `(analyzed, still_pending)` in iteration order. -/
def analyzeLoop (env : LearnEnv) (now : ℤ) :
    List LearningRecord → List LearningResult × List LearningRecord
  | [] => ([], [])
  | r :: rest =>
    let p := analyzeLoop env now rest
    if now ≥ r.analyze_after then
      match analyze_action_effect env now r with
      | some res => (res :: p.1, p.2)
      | none => p
    else (p.1, r :: p.2)

/-- `ActionLearner.analyze_pending_actions` (`src/automation/learning.py:91`). -/
def analyze_pending_actions (env : LearnEnv) (now : ℤ) (st : LearnerState) :
    List LearningResult × LearnerState :=
  if ¬(env.agentPresent ∧ env.metaInitialized) then ([], st)
  else
    let (analyzed, still_pending) := analyzeLoop env now st.pending
    (analyzed, { learnings := st.learnings ++ analyzed, pending := still_pending })

end Learning

namespace Reco

/-- A JSON value, as produced by `json.loads`. -/
inductive JVal where
  | null
  | bool (b : Bool)
  | num (n : ℤ)
  | str (s : String)
  | arr (elems : List JVal)
  | obj (members : List (String × JVal))
deriving Repr

/-- Skip JSON insignificant whitespace. -/
def skipWs : List Char → List Char
  | c :: cs => if c = ' ' ∨ c = '\n' ∨ c = '\t' ∨ c = '\r' then skipWs cs else c :: cs
  | [] => []

/-- JSON string-escape decoding (the fragment of `json.loads` escapes the
statements below exercise; `\uXXXX` escapes are out of this fragment). -/
def escChar (c : Char) : Char :=
  if c = 'n' then '\n' else if c = 't' then '\t' else if c = 'r' then '\r' else c

/-- Read the body of a JSON string after the opening quote; returns the
decoded characters and the input after the closing quote. -/
def strChars : List Char → Option (List Char × List Char)
  | [] => none
  | '"' :: rest => some ([], rest)
  | '\\' :: c :: rest => (strChars rest).map (fun p => (escChar c :: p.1, p.2))
  | c :: rest => (strChars rest).map (fun p => (c :: p.1, p.2))

/-- Decimal digits to a natural number. -/
def digitsToNat (ds : List Char) : ℕ :=
  ds.foldl (fun a c => 10 * a + (c.toNat - '0'.toNat)) 0

/-- Parse a JSON integer (the numeric fragment of `json.loads` the
statements below exercise; fractional literals are outside it). -/
def parseNum : List Char → Option (JVal × List Char)
  | '-' :: cs =>
    match cs.span Char.isDigit with
    | ([], _) => none
    | (ds, r) => some (.num (-(digitsToNat ds : ℤ)), r)
  | cs =>
    match cs.span Char.isDigit with
    | ([], _) => none
    | (ds, r) => some (.num (digitsToNat ds), r)

mutual

/-- Parse one JSON value (fuel-indexed recursive-descent model of
`json.loads`). -/
def parseVal : ℕ → List Char → Option (JVal × List Char)
  | 0, _ => none
  | fuel + 1, cs =>
    match skipWs cs with
    | [] => none
    | c :: rest =>
      if c = 'n' then
        if rest.take 3 = ['u', 'l', 'l'] then some (.null, rest.drop 3) else none
      else if c = 't' then
        if rest.take 3 = ['r', 'u', 'e'] then some (.bool true, rest.drop 3) else none
      else if c = 'f' then
        if rest.take 4 = ['a', 'l', 's', 'e'] then some (.bool false, rest.drop 4) else none
      else if c = '"' then
        (strChars rest).map (fun p => (.str (String.mk p.1), p.2))
      else if c = '[' then
        match skipWs rest with
        | ']' :: r2 => some (.arr [], r2)
        | _ =>
          match parseElems fuel rest with
          | some (l, r2) => some (.arr l, r2)
          | none => none
      else if c = '\x7b' then
        match skipWs rest with
        | '\x7d' :: r2 => some (.obj [], r2)
        | _ =>
          match parseMembers fuel rest with
          | some (l, r2) => some (.obj l, r2)
          | none => none
      else if c = '-' ∨ c.isDigit then parseNum (c :: rest)
      else none

/-- Parse the comma-separated elements of a non-empty JSON array, including
the closing bracket. -/
def parseElems : ℕ → List Char → Option (List JVal × List Char)
  | 0, _ => none
  | fuel + 1, cs =>
    match parseVal fuel cs with
    | none => none
    | some (v, r) =>
      match skipWs r with
      | ',' :: r2 => (parseElems fuel r2).map (fun p => (v :: p.1, p.2))
      | ']' :: r2 => some ([v], r2)
      | _ => none

/-- Parse the members of a non-empty JSON object, including the closing
brace. -/
def parseMembers : ℕ → List Char → Option (List (String × JVal) × List Char)
  | 0, _ => none
  | fuel + 1, cs =>
    match skipWs cs with
    | '"' :: r =>
      match strChars r with
      | none => none
      | some (k, r2) =>
        match skipWs r2 with
        | ':' :: r3 =>
          match parseVal fuel r3 with
          | none => none
          | some (v, r4) =>
            match skipWs r4 with
            | ',' :: r5 => (parseMembers fuel r5).map (fun p => ((String.mk k, v) :: p.1, p.2))
            | '\x7d' :: r5 => some ([(String.mk k, v)], r5)
            | _ => none
        | _ => none
    | _ => none

end

/-- `json.loads`: parse a complete JSON document (the whole input must be
consumed, up to trailing whitespace); `none` models `JSONDecodeError`. -/
def jsonLoads (s : String) : Option JVal :=
  let cs := s.toList
  match parseVal (2 * cs.length + 2) cs with
  | some (v, rest) => if skipWs rest = [] then some v else none
  | none => none

/-- Whitespace for Python `str.strip()` (the characters arising here). -/
def isPyWs (c : Char) : Bool := c == ' ' || c == '\n' || c == '\t' || c == '\r'

/-- Python `str.strip()`. -/
def pyStrip (s : String) : String :=
  String.mk (((s.toList.dropWhile isPyWs).reverse.dropWhile isPyWs).reverse)

/-- Fuel-indexed worker for Python `str.split(sep)` with a non-empty
separator. -/
def splitGo (sep : List Char) : ℕ → List Char → List Char → List (List Char)
  | _, [], acc => [acc.reverse]
  | 0, cs, acc => [acc.reverse ++ cs]
  | fuel + 1, c :: rest, acc =>
    if sep.isPrefixOf (c :: rest) then
      acc.reverse :: splitGo sep fuel ((c :: rest).drop sep.length) []
    else splitGo sep fuel rest (c :: acc)

/-- Python `s.split(sep)` (non-empty separator). -/
def pySplit (s sep : String) : List String :=
  (splitGo sep.toList (s.toList.length + 1) s.toList []).map String.mk

/-- Python `sep in s`. -/
def pyContains (s sep : String) : Bool := (pySplit s sep).length ≥ 2

/-- The code-fence extraction in `_generate_recommendations`
(`src/automation/monitor.py:926`): prefer the segment after a ` ```json `
fence, else after a plain ` ``` ` fence, else the stripped raw text. -/
def extract_json_str (response_text : String) : String :=
  if pyContains response_text "```json" then
    pyStrip (pySplit ((pySplit response_text "```json").getD 1 "") "```" |>.getD 0 "")
  else if pyContains response_text "```" then
    pyStrip (pySplit ((pySplit response_text "```").getD 1 "") "```" |>.getD 0 "")
  else
    pyStrip response_text

/-- The reply-handling tail of `PerformanceMonitor._generate_recommendations`
(`src/automation/monitor.py:806`): the LLM collaborator's reply text is the
input; the parsed JSON value is returned as-is, and any parse error is
caught and turned into `[]`. -/
def generate_recommendations (response_text : String) : JVal :=
  match jsonLoads (extract_json_str response_text) with
  | some v => v
  | none => .arr []

/-- Number of recommendation records in the returned value (length of the
returned list). -/
def recommendationCount : JVal → ℕ
  | .arr l => l.length
  | _ => 0

end Reco

/-! ## Statements about the embedded program -/

/-- C1: for every `budget_increase` action whose params contain
`increase_percent > 20` or `new_budget > 500000`, `execute` in any mode
other than `notify_only` returns `success = false` with a structured safety
reason, and no ad-platform update call is made on that run. -/
theorem c1_budget_increase_safety_bound
    (mode : String) (env : Actions.AgentEnv) (action : Actions.Action)
    (htype : action.type = "budget_increase")
    (hviol : action.params.increase_percent.getD 0 > 20 ∨
             action.params.new_budget.getD 0 > 500000)
    (hmode : mode ≠ "notify_only") :
    (Actions.execute mode env action).1.success = false ∧
    (∃ r, (Actions.execute mode env action).1.message = .safetyFailed r) ∧
    (Actions.execute mode env action).2 = [] := by
  have hsc : ∃ r, Actions.safety_check action = some r := by
    unfold Actions.safety_check
    rw [if_pos htype]
    by_cases hip : action.params.increase_percent.getD 0 > Actions.max_budget_increase_percent
    · exact ⟨_, by rw [if_pos hip]⟩
    · have hnb : action.params.new_budget.getD 0 > Actions.max_daily_budget := by
        rcases hviol with h | h
        · exact absurd h (by simpa [Actions.max_budget_increase_percent] using hip)
        · simpa [Actions.max_daily_budget] using h
      exact ⟨_, by rw [if_neg hip, if_pos hnb]⟩
  obtain ⟨r, hr⟩ := hsc
  unfold Actions.execute
  rw [if_neg hmode, hr]
  exact ⟨rfl, ⟨r, rfl⟩, rfl⟩

/-- Concrete instance of the C1 safety bound: a 50% increase request is
refused in `approval_required` mode with no platform call. -/
theorem c1_budget_increase_safety_bound_witness :
    (({ type := "budget_increase",
        params := { increase_percent := some 50, new_budget := some 12000 } } :
        Actions.Action).type = "budget_increase") ∧
    (((some (50 : ℚ)).getD 0 > 20) ∨ ((some (12000 : ℚ)).getD 0 > 500000)) ∧
    ("approval_required" : String) ≠ "notify_only" ∧
    ((Actions.execute "approval_required" {}
        { type := "budget_increase",
          params := { increase_percent := some 50, new_budget := some 12000 } }).1.success = false ∧
     (∃ r, (Actions.execute "approval_required" {}
        { type := "budget_increase",
          params := { increase_percent := some 50, new_budget := some 12000 } }).1.message
          = .safetyFailed r) ∧
     (Actions.execute "approval_required" {}
        { type := "budget_increase",
          params := { increase_percent := some 50, new_budget := some 12000 } }).2 = []) :=
  ⟨rfl, Or.inl (by norm_num), by decide,
   c1_budget_increase_safety_bound "approval_required" {}
     { type := "budget_increase",
       params := { increase_percent := some 50, new_budget := some 12000 } }
     rfl (Or.inl (by norm_num)) (by decide)⟩

/-- C3: whenever today's spend is strictly below ¥1,000, the judgment is
`insufficient_data` with empty issues, positives and comparisons, regardless
of every other metric, target or threshold. -/
theorem c3_noise_floor (cfg : Monitor.TypeConfig) (periods : Monitor.Periods)
    (bs : Monitor.BudgetStatus) (targets : Monitor.Targets)
    (h : periods.today.spend < 1000) :
    (Monitor.make_integrated_judgment cfg periods bs targets).status = "insufficient_data" ∧
    (Monitor.make_integrated_judgment cfg periods bs targets).severity = "none" ∧
    (Monitor.make_integrated_judgment cfg periods bs targets).issues = [] ∧
    (Monitor.make_integrated_judgment cfg periods bs targets).positives = [] ∧
    (Monitor.make_integrated_judgment cfg periods bs targets).comparisons = [] := by
  have h' : periods.today.spend < Monitor.MIN_DAILY_SPEND := by
    simpa [Monitor.MIN_DAILY_SPEND] using h
  unfold Monitor.make_integrated_judgment
  rw [if_pos h']
  exact ⟨rfl, rfl, rfl, rfl, rfl⟩

/-- Concrete instance of the C3 noise floor: an all-zero campaign day is
judged `insufficient_data`. -/
theorem c3_noise_floor_witness :
    (({} : Monitor.Periods).today.spend < 1000) ∧
    ((Monitor.make_integrated_judgment { primary_kpi := "cpf" } {} {} {}).status
        = "insufficient_data" ∧
     (Monitor.make_integrated_judgment { primary_kpi := "cpf" } {} {} {}).severity = "none" ∧
     (Monitor.make_integrated_judgment { primary_kpi := "cpf" } {} {} {}).issues = [] ∧
     (Monitor.make_integrated_judgment { primary_kpi := "cpf" } {} {} {}).positives = [] ∧
     (Monitor.make_integrated_judgment { primary_kpi := "cpf" } {} {} {}).comparisons = []) :=
  ⟨by norm_num, c3_noise_floor { primary_kpi := "cpf" } {} {} {} (by norm_num)⟩

/-- Above the noise floor, `_make_integrated_judgment` is the classification
of the findings collected by the KPI and common sections. -/
theorem make_judgment_above_floor (cfg : Monitor.TypeConfig)
    (periods : Monitor.Periods) (bs : Monitor.BudgetStatus)
    (targets : Monitor.Targets)
    (h : ¬ periods.today.spend < Monitor.MIN_DAILY_SPEND) :
    Monitor.make_integrated_judgment cfg periods bs targets =
      Monitor.classify
        ((Monitor.kpiFindings cfg periods.today periods.yesterday periods.last_7d targets).append
          (Monitor.commonFindings cfg periods.today periods.yesterday periods.last_7d)).issues
        ((Monitor.kpiFindings cfg periods.today periods.yesterday periods.last_7d targets).append
          (Monitor.commonFindings cfg periods.today periods.yesterday periods.last_7d)).positives
        ((Monitor.kpiFindings cfg periods.today periods.yesterday periods.last_7d targets).append
          (Monitor.commonFindings cfg periods.today periods.yesterday periods.last_7d)).comparisons
        bs := by
  unfold Monitor.make_integrated_judgment
  rw [if_neg h]

/-- The final-classification section of `_make_integrated_judgment` keeps
its input lists and maps the three counts to status/severity exactly as the
`if`/`elif` chain does. -/
theorem classify_spec (I : List Monitor.Issue) (P : List Monitor.PosKind)
    (C : List Monitor.Comparison) (bs : Monitor.BudgetStatus) :
    (Monitor.classify I P C bs).issues = I ∧
    (Monitor.classify I P C bs).positives = P ∧
    (Monitor.classify I P C bs).comparisons = C ∧
    (0 < Monitor.criticalCount I →
      (Monitor.classify I P C bs).status = "critical" ∧
      (Monitor.classify I P C bs).severity = "high") ∧
    (Monitor.criticalCount I = 0 →
      (P.length > Monitor.warningCount I →
        (Monitor.classify I P C bs).status = "opportunity" ∧
        (Monitor.classify I P C bs).severity = "none") ∧
      (Monitor.warningCount I > P.length →
        (Monitor.classify I P C bs).status = "warning" ∧
        (Monitor.classify I P C bs).severity = "medium") ∧
      (P.length = Monitor.warningCount I →
        (Monitor.classify I P C bs).status = "normal" ∧
        (Monitor.classify I P C bs).severity = "none")) := by
  unfold Monitor.classify
  dsimp only
  by_cases h1 : Monitor.criticalCount I > 0
  · rw [if_pos h1]
    exact ⟨rfl, rfl, rfl, fun _ => ⟨rfl, rfl⟩, fun h0 => absurd h0 (by omega)⟩
  · rw [if_neg h1]
    by_cases h2 : P.length > 0 ∧ P.length > Monitor.warningCount I
    · rw [if_pos h2]
      refine ⟨rfl, rfl, rfl, fun h0 => absurd h0 h1, fun _ => ⟨fun _ => ⟨rfl, rfl⟩, ?_, ?_⟩⟩
      · intro hw; exact absurd hw (by omega)
      · intro he; exact absurd he (by omega)
    · by_cases h3 : Monitor.warningCount I > 0 ∧ Monitor.warningCount I > P.length
      · rw [if_neg h2, if_pos h3]
        refine ⟨rfl, rfl, rfl, fun h0 => absurd h0 h1, fun _ => ⟨?_, fun _ => ⟨rfl, rfl⟩, ?_⟩⟩
        · intro hp; exact absurd hp (by omega)
        · intro he; exact absurd he (by omega)
      · rw [if_neg h2, if_neg h3]
        refine ⟨rfl, rfl, rfl, fun h0 => absurd h0 h1, fun _ => ⟨?_, ?_, fun _ => ⟨rfl, rfl⟩⟩⟩
        · intro hp; exact absurd hp (by omega)
        · intro hw; exact absurd hw (by omega)

/-- C2: above the noise floor, the judgment's status/severity are a function
of the issue and positive counts it carries: any critical issue forces
`critical`/`high`; otherwise more positives than warnings gives
`opportunity`/`none`, more warnings than positives gives
`warning`/`medium`, and a tie (including zero/zero) gives `normal`/`none`. -/
theorem c2_verdict_classification (cfg : Monitor.TypeConfig)
    (periods : Monitor.Periods) (bs : Monitor.BudgetStatus)
    (targets : Monitor.Targets) (j : Monitor.Judgment)
    (hspend : ¬ periods.today.spend < 1000)
    (hj : Monitor.make_integrated_judgment cfg periods bs targets = j) :
    (0 < Monitor.criticalCount j.issues →
      j.status = "critical" ∧ j.severity = "high") ∧
    (Monitor.criticalCount j.issues = 0 →
      (j.positives.length > Monitor.warningCount j.issues →
        j.status = "opportunity" ∧ j.severity = "none") ∧
      (Monitor.warningCount j.issues > j.positives.length →
        j.status = "warning" ∧ j.severity = "medium") ∧
      (j.positives.length = Monitor.warningCount j.issues →
        j.status = "normal" ∧ j.severity = "none")) := by
  have hspend' : ¬ periods.today.spend < Monitor.MIN_DAILY_SPEND := by
    simpa [Monitor.MIN_DAILY_SPEND] using hspend
  subst hj
  rw [make_judgment_above_floor cfg periods bs targets hspend']
  obtain ⟨hI, hP, -, hcrit, hrest⟩ := classify_spec
    ((Monitor.kpiFindings cfg periods.today periods.yesterday periods.last_7d targets).append
      (Monitor.commonFindings cfg periods.today periods.yesterday periods.last_7d)).issues
    ((Monitor.kpiFindings cfg periods.today periods.yesterday periods.last_7d targets).append
      (Monitor.commonFindings cfg periods.today periods.yesterday periods.last_7d)).positives
    ((Monitor.kpiFindings cfg periods.today periods.yesterday periods.last_7d targets).append
      (Monitor.commonFindings cfg periods.today periods.yesterday periods.last_7d)).comparisons
    bs
  rw [hI, hP]
  exact ⟨hcrit, hrest⟩

/-- Concrete instance of the C2 classification: a quiet day above the noise
floor with no issues and no positives is judged `normal`/`none`. -/
theorem c2_verdict_classification_witness :
    (¬ (({ today := { spend := 5000 } } : Monitor.Periods).today.spend < 1000)) ∧
    ((0 < Monitor.criticalCount
        (Monitor.make_integrated_judgment { primary_kpi := "spend" }
          { today := { spend := 5000 } } {} {}).issues →
      (Monitor.make_integrated_judgment { primary_kpi := "spend" }
          { today := { spend := 5000 } } {} {}).status = "critical" ∧
      (Monitor.make_integrated_judgment { primary_kpi := "spend" }
          { today := { spend := 5000 } } {} {}).severity = "high") ∧
    (Monitor.criticalCount
        (Monitor.make_integrated_judgment { primary_kpi := "spend" }
          { today := { spend := 5000 } } {} {}).issues = 0 →
      ((Monitor.make_integrated_judgment { primary_kpi := "spend" }
          { today := { spend := 5000 } } {} {}).positives.length >
        Monitor.warningCount (Monitor.make_integrated_judgment { primary_kpi := "spend" }
          { today := { spend := 5000 } } {} {}).issues →
        (Monitor.make_integrated_judgment { primary_kpi := "spend" }
          { today := { spend := 5000 } } {} {}).status = "opportunity" ∧
        (Monitor.make_integrated_judgment { primary_kpi := "spend" }
          { today := { spend := 5000 } } {} {}).severity = "none") ∧
      (Monitor.warningCount (Monitor.make_integrated_judgment { primary_kpi := "spend" }
          { today := { spend := 5000 } } {} {}).issues >
        (Monitor.make_integrated_judgment { primary_kpi := "spend" }
          { today := { spend := 5000 } } {} {}).positives.length →
        (Monitor.make_integrated_judgment { primary_kpi := "spend" }
          { today := { spend := 5000 } } {} {}).status = "warning" ∧
        (Monitor.make_integrated_judgment { primary_kpi := "spend" }
          { today := { spend := 5000 } } {} {}).severity = "medium") ∧
      ((Monitor.make_integrated_judgment { primary_kpi := "spend" }
          { today := { spend := 5000 } } {} {}).positives.length =
        Monitor.warningCount (Monitor.make_integrated_judgment { primary_kpi := "spend" }
          { today := { spend := 5000 } } {} {}).issues →
        (Monitor.make_integrated_judgment { primary_kpi := "spend" }
          { today := { spend := 5000 } } {} {}).status = "normal" ∧
        (Monitor.make_integrated_judgment { primary_kpi := "spend" }
          { today := { spend := 5000 } } {} {}).severity = "none"))) :=
  ⟨by norm_num,
   c2_verdict_classification { primary_kpi := "spend" } { today := { spend := 5000 } } {} {}
     _ (by norm_num) rfl⟩

/-- The learner loop's carried-over records are exactly the not-yet-due
pending records, in order. -/
theorem analyzeLoop_snd_eq_filter (env : Learning.LearnEnv) (now : ℤ) :
    ∀ l, (Learning.analyzeLoop env now l).2
      = l.filter (fun r => decide (now < r.analyze_after)) := by
  intro l
  induction l with
  | nil => rfl
  | cons r t ih =>
    unfold Learning.analyzeLoop
    dsimp only
    by_cases h : now ≥ r.analyze_after
    · rw [if_pos h]
      have hf : decide (now < r.analyze_after) = false := by
        simp [not_lt.mpr h]
      cases hc : Learning.analyze_action_effect env now r <;>
        simp [hc, ih, List.filter_cons, hf]
    · rw [if_neg h]
      have ht : decide (now < r.analyze_after) = true := by
        simp [lt_of_not_ge h]
      simp [ih, List.filter_cons, ht]

/-- The learner loop's analyzed results are exactly the successful analyses
of the due pending records, in order. -/
theorem analyzeLoop_fst_eq_filterMap (env : Learning.LearnEnv) (now : ℤ) :
    ∀ l, (Learning.analyzeLoop env now l).1
      = l.filterMap
          (fun r => if now ≥ r.analyze_after
                    then Learning.analyze_action_effect env now r else none) := by
  intro l
  induction l with
  | nil => rfl
  | cons r t ih =>
    unfold Learning.analyzeLoop
    dsimp only
    by_cases h : now ≥ r.analyze_after
    · rw [if_pos h]
      cases hc : Learning.analyze_action_effect env now r <;>
        simp [hc, ih, List.filterMap_cons, if_pos h]
    · rw [if_neg h]
      simp [ih, List.filterMap_cons, if_neg h]

/-- C7: a pending record whose `analyze_after` has not elapsed is always
carried over unchanged by `analyze_pending_actions`, and every analyzed
result stems from a record that was due — so no record is analyzed early. -/
theorem c7_no_analysis_before_delay (env : Learning.LearnEnv) (now : ℤ)
    (st : Learning.LearnerState) (r : Learning.LearningRecord)
    (hr : r ∈ st.pending) (hlt : now < r.analyze_after) :
    r ∈ (Learning.analyze_pending_actions env now st).2.pending ∧
    ∀ res ∈ (Learning.analyze_pending_actions env now st).1,
      ∃ rec ∈ st.pending, now ≥ rec.analyze_after ∧
        Learning.analyze_action_effect env now rec = some res := by
  unfold Learning.analyze_pending_actions
  by_cases he : ¬(env.agentPresent ∧ env.metaInitialized)
  · rw [if_pos he]
    exact ⟨hr, fun res h => absurd h (List.not_mem_nil res)⟩
  · rw [if_neg he]
    dsimp only
    constructor
    · rw [analyzeLoop_snd_eq_filter]
      exact List.mem_filter.mpr ⟨hr, by simpa using hlt⟩
    · intro res hres
      rw [analyzeLoop_fst_eq_filterMap] at hres
      obtain ⟨rec, hrec, hf⟩ := List.mem_filterMap.mp hres
      by_cases hd : now ≥ rec.analyze_after
      · exact ⟨rec, hrec, hd, by simpa [if_pos hd] using hf⟩
      · rw [if_neg hd] at hf
        exact absurd hf (by simp)

/-- Concrete instance of C7: a record due at time 100 is untouched by a pass
at time 50. -/
theorem c7_no_analysis_before_delay_witness :
    (({ id := "r1", action := { type := "budget_change" }, campaign_id := "c9",
        account_id := "a9", executed_at := 0, analyze_after := 100,
        baseline := {} } : Learning.LearningRecord) ∈
      ([{ id := "r1", action := { type := "budget_change" }, campaign_id := "c9",
          account_id := "a9", executed_at := 0, analyze_after := 100,
          baseline := {} }] : List Learning.LearningRecord)) ∧
    ((50 : ℤ) < 100) ∧
    (({ id := "r1", action := { type := "budget_change" }, campaign_id := "c9",
        account_id := "a9", executed_at := 0, analyze_after := 100,
        baseline := {} } : Learning.LearningRecord) ∈
      (Learning.analyze_pending_actions {} 50
        { pending := [{ id := "r1", action := { type := "budget_change" },
                        campaign_id := "c9", account_id := "a9", executed_at := 0,
                        analyze_after := 100, baseline := {} }] }).2.pending) :=
  ⟨by simp, by decide,
   (c7_no_analysis_before_delay {} 50
     { pending := [{ id := "r1", action := { type := "budget_change" },
                     campaign_id := "c9", account_id := "a9", executed_at := 0,
                     analyze_after := 100, baseline := {} }] }
     { id := "r1", action := { type := "budget_change" }, campaign_id := "c9",
       account_id := "a9", executed_at := 0, analyze_after := 100, baseline := {} }
     (by simp) (by decide)).1⟩

/-- A learning record used in the statements about `analyze_pending_actions`
on a failing metric fetch. -/
def c4record : Learning.LearningRecord :=
  { id := "r1", action := { type := "budget_change" }, campaign_id := "c9",
    account_id := "a9", executed_at := 0, analyze_after := 100, baseline := {} }

/-- C4 counterexample: with the metric fetch failing (the default
environment's `fetchInsights` returns nothing), a due pending record is
*not* retained: after `analyze_pending_actions` the pending store is empty,
the record is gone. -/
theorem c4_counterexample :
    Learning.analyze_action_effect {} 200 c4record = none ∧
    (200 : ℤ) ≥ c4record.analyze_after ∧
    (Learning.analyze_pending_actions {} 200 { pending := [c4record] }).2.pending = [] ∧
    c4record ∉ (Learning.analyze_pending_actions {} 200 { pending := [c4record] }).2.pending :=
  ⟨rfl, by decide, rfl, List.not_mem_nil c4record⟩

/-- C4 corrected: when a pending record is due and its effect analysis
yields no result (fetch failed or empty), `analyze_pending_actions` drops it
— it is neither kept pending nor added to the learned history; only
not-yet-due records are carried over, and the learned history grows exactly
by the successful analyses of due records. -/
theorem c4_failed_analysis_drops_record (env : Learning.LearnEnv) (now : ℤ)
    (st : Learning.LearnerState) (r : Learning.LearningRecord)
    (henv : env.agentPresent ∧ env.metaInitialized)
    (hdue : now ≥ r.analyze_after)
    (hfail : Learning.analyze_action_effect env now r = none) :
    r ∉ (Learning.analyze_pending_actions env now st).2.pending ∧
    (if now ≥ r.analyze_after then Learning.analyze_action_effect env now r
     else none) = none ∧
    (Learning.analyze_pending_actions env now st).1 =
      st.pending.filterMap
        (fun rec => if now ≥ rec.analyze_after
                    then Learning.analyze_action_effect env now rec else none) ∧
    (Learning.analyze_pending_actions env now st).2.learnings =
      st.learnings ++ (Learning.analyze_pending_actions env now st).1 ∧
    (Learning.analyze_pending_actions env now st).2.pending =
      st.pending.filter (fun rec => decide (now < rec.analyze_after)) := by
  have hcond : ¬¬(env.agentPresent ∧ env.metaInitialized) := not_not_intro henv
  unfold Learning.analyze_pending_actions
  rw [if_neg hcond]
  dsimp only
  refine ⟨?_, ?_, analyzeLoop_fst_eq_filterMap env now st.pending, rfl,
    analyzeLoop_snd_eq_filter env now st.pending⟩
  · rw [analyzeLoop_snd_eq_filter]
    intro hm
    have hlt := (List.mem_filter.mp hm).2
    simp only [decide_eq_true_eq] at hlt
    exact absurd hlt (not_lt.mpr hdue)
  · rw [if_pos hdue]
    exact hfail

/-- Concrete instance of the corrected C4: the due record with a failing
fetch is in neither store afterwards. -/
theorem c4_failed_analysis_drops_record_witness :
    (({} : Learning.LearnEnv).agentPresent ∧ ({} : Learning.LearnEnv).metaInitialized) ∧
    ((200 : ℤ) ≥ c4record.analyze_after) ∧
    (Learning.analyze_action_effect {} 200 c4record = none) ∧
    (c4record ∉ (Learning.analyze_pending_actions {} 200
        { pending := [c4record] }).2.pending ∧
     (Learning.analyze_pending_actions {} 200 { pending := [c4record] }).2.learnings =
       [] ++ (Learning.analyze_pending_actions {} 200 { pending := [c4record] }).1) :=
  ⟨⟨rfl, rfl⟩, by decide, rfl,
   (c4_failed_analysis_drops_record {} 200 { pending := [c4record] } c4record
     ⟨rfl, rfl⟩ (by decide) rfl).1,
   (c4_failed_analysis_drops_record {} 200 { pending := [c4record] } c4record
     ⟨rfl, rfl⟩ (by decide) rfl).2.2.2.1⟩

/-- `approve` finds nothing when no pending entry carries the id. -/
theorem approveFirst_eq_none_of_not_mem (now action_id : String)
    (l : List Actions.QueuedAction)
    (h : action_id ∉ l.map Actions.QueuedAction.id) :
    Actions.approveFirst now action_id l = none := by
  induction l with
  | nil => rfl
  | cons q rest ih =>
    have h1 : ¬ q.id = action_id := fun he => h (by simp [he])
    have h2 : action_id ∉ rest.map Actions.QueuedAction.id := fun hm => h (by simp [hm])
    unfold Actions.approveFirst
    rw [if_neg h1, ih h2]
    rfl

/-- Removing the first pending entry with a given id removes every entry
with that id, provided pending ids are distinct. -/
theorem rejectFirst_removes_id (now action_id reason : String) :
    ∀ (l : List Actions.QueuedAction),
      (l.map Actions.QueuedAction.id).Nodup →
      ∀ a rest, Actions.rejectFirst now action_id reason l = some (a, rest) →
        action_id ∉ rest.map Actions.QueuedAction.id := by
  intro l
  induction l with
  | nil => intro _ a rest h; simp [Actions.rejectFirst] at h
  | cons q t ih =>
    intro hnd a rest h
    rw [List.map_cons, List.nodup_cons] at hnd
    obtain ⟨hq_notin, hnd'⟩ := hnd
    unfold Actions.rejectFirst at h
    by_cases hq : q.id = action_id
    · rw [if_pos hq] at h
      injection h with h'
      injection h' with h1 h2
      subst h2
      intro hm
      rw [← hq] at hm
      exact hq_notin hm
    · rw [if_neg hq] at h
      obtain ⟨⟨a2, rest2⟩, hsome, heq⟩ := Option.map_eq_some'.mp h
      injection heq with h1 h2
      subst h2
      rw [List.map_cons, List.mem_cons]
      rintro (h1 | h2)
      · exact hq h1.symm
      · exact ih hnd' a2 rest2 hsome h2

/-- Characterization of a successful `approve` lookup: the first pending
entry with the id is stamped approved and removed. -/
theorem approveFirst_spec (now action_id : String) :
    ∀ (l : List Actions.QueuedAction) (a : Actions.QueuedAction)
      (rest : List Actions.QueuedAction),
      Actions.approveFirst now action_id l = some (a, rest) →
      ∃ l1 q l2, l = l1 ++ q :: l2 ∧ q.id = action_id ∧
        a = { q with status := "approved", approved_at := some now } ∧
        rest = l1 ++ l2 := by
  intro l
  induction l with
  | nil => intro a rest h; simp [Actions.approveFirst] at h
  | cons p t ih =>
    intro a rest h
    unfold Actions.approveFirst at h
    by_cases hp : p.id = action_id
    · rw [if_pos hp] at h
      injection h with h'
      injection h' with h1 h2
      exact ⟨[], p, t, by simp, hp, h1.symm, h2.symm⟩
    · rw [if_neg hp] at h
      obtain ⟨⟨a2, r2⟩, hsome, heq⟩ := Option.map_eq_some'.mp h
      injection heq with h1 h2
      obtain ⟨l1, q, l2, hl, hq, ha, hr⟩ := ih a2 r2 hsome
      exact ⟨p :: l1, q, l2, by simp [hl], hq, by rw [← h1, ha],
        by rw [← h2, hr, List.cons_append]⟩

/-- Characterization of a successful `reject` lookup: the first pending
entry with the id is stamped rejected and removed. -/
theorem rejectFirst_spec (now action_id reason : String) :
    ∀ (l : List Actions.QueuedAction) (a : Actions.QueuedAction)
      (rest : List Actions.QueuedAction),
      Actions.rejectFirst now action_id reason l = some (a, rest) →
      ∃ l1 q l2, l = l1 ++ q :: l2 ∧ q.id = action_id ∧
        a = { q with status := "rejected", rejected_at := some now, reject_reason := some reason } ∧
        rest = l1 ++ l2 := by
  intro l
  induction l with
  | nil => intro a rest h; simp [Actions.rejectFirst] at h
  | cons p t ih =>
    intro a rest h
    unfold Actions.rejectFirst at h
    by_cases hp : p.id = action_id
    · rw [if_pos hp] at h
      injection h with h'
      injection h' with h1 h2
      exact ⟨[], p, t, by simp, hp, h1.symm, h2.symm⟩
    · rw [if_neg hp] at h
      obtain ⟨⟨a2, r2⟩, hsome, heq⟩ := Option.map_eq_some'.mp h
      injection heq with h1 h2
      obtain ⟨l1, q, l2, hl, hq, ha, hr⟩ := ih a2 r2 hsome
      exact ⟨p :: l1, q, l2, by simp [hl], hq, by rw [← h1, ha],
        by rw [← h2, hr, List.cons_append]⟩

/-- `mark_executed` on a history whose only entry with the id is the final
queued one either aborts on an interleaved direct record (`KeyError`) or
patches exactly that final entry. -/
theorem mark_executed_append (now action_id : String) (res : Actions.ExecResult) :
    ∀ (H : List Actions.HistoryEntry) (a : Actions.QueuedAction),
      a.id = action_id →
      (∀ p : Actions.QueuedAction, Actions.HistoryEntry.queued p ∈ H →
        p.id ≠ action_id) →
      Actions.mark_executed now action_id res (H ++ [.queued a]) = none ∨
      Actions.mark_executed now action_id res (H ++ [.queued a]) =
        some (H ++ [.queued { a with status := "executed", executed_at := some now, result := some res }]) := by
  intro H
  induction H with
  | nil =>
    intro a ha _
    right
    simp [Actions.mark_executed, ha]
  | cons e t ih =>
    intro a ha hH
    cases e with
    | queued p =>
      have hp : ¬ p.id = action_id := hH p (by simp)
      have hrec := ih a ha (fun p' hp' => hH p' (by simp [hp']))
      rw [List.cons_append]
      unfold Actions.mark_executed
      rw [if_neg hp]
      rcases hrec with h | h
      · left; rw [h]; rfl
      · right; rw [h]; rfl
    | direct x y z =>
      left
      rw [List.cons_append]
      rfl

/-- Moving an element from the middle of the first block to the end of the
second is a permutation (id bookkeeping for approve/reject moves). -/
theorem ids_perm (A B H : List String) (x : String) :
    List.Perm (A ++ (B ++ (H ++ [x]))) (A ++ x :: (B ++ H)) := by
  have h1 : A ++ (B ++ (H ++ [x])) = A ++ ((B ++ H) ++ [x]) := by
    simp [List.append_assoc]
  rw [h1]
  exact List.Perm.append_left A (List.perm_append_singleton x (B ++ H))

/-- Appending a direct-execution record preserves queue well-formedness. -/
theorem queueWF_add_to_history (s : Actions.QueueState)
    (hwf : Actions.QueueWF s) (a : Actions.Action) (r : Actions.ExecResult)
    (t : String) : Actions.QueueWF (Actions.add_to_history a r t s) := by
  obtain ⟨hnd, hpend, hhist⟩ := hwf
  refine ⟨?_, hpend, ?_⟩
  · simpa [Actions.queuedIds, Actions.historyQueuedIds, Actions.add_to_history,
      List.filterMap_append] using hnd
  · intro q hq
    rcases List.mem_append.mp hq with h | h
    · exact hhist q h
    · simp at h

/-- Every executor-level operation preserves queue well-formedness (propose
with a fresh id; approval, rejection and the two direct paths
unconditionally). -/
theorem applyOp_preserves_wf (op : Actions.QueueOp) (s s' : Actions.QueueState)
    (hwf : Actions.QueueWF s) (hfresh : Actions.opIdFresh op s)
    (happ : Actions.applyOp op s = some s') : Actions.QueueWF s' := by
  obtain ⟨hnd, hpend, hhist⟩ := hwf
  cases op with
  | propose now action_id action =>
    simp only [Actions.applyOp, Actions.add_action, Option.some_inj] at happ
    subst happ
    refine ⟨?_, ?_, hhist⟩
    · have hfresh' : action_id ∉ Actions.queuedIds s := hfresh
      have hgoal : (s.pending.map Actions.QueuedAction.id ++
          action_id :: Actions.historyQueuedIds s.history).Nodup := by
        refine List.Perm.nodup (List.perm_middle.symm) ?_
        exact List.nodup_cons.mpr
          ⟨by simpa [Actions.queuedIds] using hfresh', hnd⟩
      simpa [Actions.queuedIds, List.map_append] using hgoal
    · intro q hq
      rcases List.mem_append.mp hq with h | h
      · exact hpend q h
      · simp at h
        subst h
        exact ⟨rfl, rfl, rfl, rfl, rfl⟩
  | approveById mode env now action_id =>
    simp only [Actions.applyOp] at happ
    unfold Actions.approve_action Actions.approve at happ
    cases hAF : Actions.approveFirst now action_id s.pending with
    | none =>
      rw [hAF] at happ
      dsimp only at happ
      simp only [Option.map_some', Option.some_inj] at happ
      subst happ
      exact ⟨hnd, hpend, hhist⟩
    | some p =>
      obtain ⟨a, pend'⟩ := p
      obtain ⟨l1, q, l2, hl, hqid, ha, hrest⟩ :=
        approveFirst_spec now action_id s.pending a pend' hAF
      subst ha
      subst hrest
      rw [hAF] at happ
      dsimp only at happ
      have hqmem : q ∈ s.pending := by rw [hl]; simp
      have hqpend := hpend q hqmem
      have hidmem : action_id ∈ s.pending.map Actions.QueuedAction.id :=
        List.mem_map.mpr ⟨q, hqmem, hqid⟩
      have hdisj := List.disjoint_of_nodup_append hnd
      have hH : ∀ p : Actions.QueuedAction,
          Actions.HistoryEntry.queued p ∈ s.history → p.id ≠ action_id := by
        intro p hp hpe
        exact hdisj hidmem (by
          exact List.mem_filterMap.mpr ⟨.queued p, hp, by simp [hpe]⟩)
      rcases mark_executed_append now action_id
          (Actions.execute mode env q.action).1 s.history
          { q with status := "approved", approved_at := some now }
          hqid hH with hm | hm
      · rw [hm] at happ
        simp at happ
      · rw [hm] at happ
        simp only [Option.map_some', Option.some_inj] at happ
        subst happ
        refine ⟨?_, ?_, ?_⟩
        · have hnd' : (l1.map Actions.QueuedAction.id ++ q.id ::
              (l2.map Actions.QueuedAction.id ++
                Actions.historyQueuedIds s.history)).Nodup := by
            have h0 := hnd
            simp only [Actions.queuedIds, hl] at h0
            simpa [List.map_append] using h0
          have hres := (ids_perm (l1.map Actions.QueuedAction.id)
            (l2.map Actions.QueuedAction.id)
            (Actions.historyQueuedIds s.history) q.id).symm.nodup hnd'
          simpa [Actions.queuedIds, Actions.historyQueuedIds,
            List.filterMap_append, List.map_append] using hres
        · intro p hp
          have : p ∈ s.pending := by
            rw [hl]
            rcases List.mem_append.mp hp with h | h
            · exact List.mem_append.mpr (Or.inl h)
            · exact List.mem_append.mpr (Or.inr (List.mem_cons_of_mem q h))
          exact hpend p this
        · intro p hp
          rcases List.mem_append.mp hp with h | h
          · exact hhist p h
          · simp at h
            subst h
            refine Or.inr (Or.inr ⟨rfl, by simp, ?_, by simp, by simp⟩)
            simpa using hqpend.2.2.1
  | rejectById now action_id reason =>
    simp only [Actions.applyOp] at happ
    unfold Actions.reject_action Actions.reject at happ
    cases hRF : Actions.rejectFirst now action_id reason s.pending with
    | none =>
      rw [hRF] at happ
      dsimp only at happ
      rw [Option.some_inj] at happ
      subst happ
      exact ⟨hnd, hpend, hhist⟩
    | some p =>
      obtain ⟨a, pend'⟩ := p
      obtain ⟨l1, q, l2, hl, hqid, ha, hrest⟩ :=
        rejectFirst_spec now action_id reason s.pending a pend' hRF
      subst ha
      subst hrest
      rw [hRF] at happ
      dsimp only at happ
      rw [Option.some_inj] at happ
      subst happ
      have hqmem : q ∈ s.pending := by rw [hl]; simp
      have hqpend := hpend q hqmem
      refine ⟨?_, ?_, ?_⟩
      · have hnd' : (l1.map Actions.QueuedAction.id ++ q.id ::
            (l2.map Actions.QueuedAction.id ++
              Actions.historyQueuedIds s.history)).Nodup := by
          have h0 := hnd
          simp only [Actions.queuedIds, hl] at h0
          simpa [List.map_append] using h0
        have hres := (ids_perm (l1.map Actions.QueuedAction.id)
          (l2.map Actions.QueuedAction.id)
          (Actions.historyQueuedIds s.history) q.id).symm.nodup hnd'
        simpa [Actions.queuedIds, Actions.historyQueuedIds,
          List.filterMap_append, List.map_append] using hres
      · intro p hp
        have : p ∈ s.pending := by
          rw [hl]
          rcases List.mem_append.mp hp with h | h
          · exact List.mem_append.mpr (Or.inl h)
          · exact List.mem_append.mpr (Or.inr (List.mem_cons_of_mem q h))
        exact hpend p this
      · intro p hp
        rcases List.mem_append.mp hp with h | h
        · exact hhist p h
        · simp at h
          subst h
          refine Or.inr (Or.inl ⟨rfl, by simp, ?_, ?_, ?_⟩)
          · simpa using hqpend.2.1
          · simpa using hqpend.2.2.2.1
          · simpa using hqpend.2.2.2.2
  | directBudget env now campaign_id new_budget account_id =>
    simp only [Actions.applyOp, Option.some_inj] at happ
    subst happ
    exact queueWF_add_to_history s ⟨hnd, hpend, hhist⟩ _ _ _
  | directStatus env now campaign_id new_status account_id =>
    simp only [Actions.applyOp, Option.some_inj] at happ
    subst happ
    exact queueWF_add_to_history s ⟨hnd, hpend, hhist⟩ _ _ _

/-- C5: the queue state machine.  From the empty stores, every
executor-level operation preserves well-formedness, and well-formedness
pins down how `executed` is reached: a queued history entry with status
`executed` was approved (approval timestamp set) and carries a recorded
execution result and no rejection — i.e. it went through approve-then-
execute — while direct executions are recorded as separate direct entries;
in particular rejected entries never carry the `executed` status.  And once
`reject(id)` succeeds on distinct pending ids, the entry has left the
pending queue: a later `approve(id)` finds nothing and the
approve-then-execute entry point returns a not-found result with no
ad-platform call and an unchanged state. -/
theorem c5_queue_state_machine :
    Actions.QueueWF {} ∧
    (∀ (op : Actions.QueueOp) (s s' : Actions.QueueState),
      Actions.QueueWF s → Actions.opIdFresh op s →
      Actions.applyOp op s = some s' → Actions.QueueWF s') ∧
    (∀ (s : Actions.QueueState) (q : Actions.QueuedAction),
      Actions.QueueWF s → Actions.HistoryEntry.queued q ∈ s.history →
      q.status = "executed" →
      q.approved_at.isSome ∧ q.result.isSome ∧ q.rejected_at = none ∧
      q.status ≠ "rejected") ∧
    (∀ (s : Actions.QueueState) (now reason action_id : String)
      (a : Actions.QueuedAction) (s' : Actions.QueueState),
      (s.pending.map Actions.QueuedAction.id).Nodup →
      Actions.reject now action_id reason s = (some a, s') →
      ∀ (now2 mode : String) (env : Actions.AgentEnv),
        (Actions.approve now2 action_id s').1 = none ∧
        Actions.approve_action mode env now2 action_id s' =
          some ({ success := false, executed := false,
                  message := .actionNotFound action_id }, [], s')) := by
  refine ⟨?_, applyOp_preserves_wf, ?_, ?_⟩
  · exact ⟨by simp [Actions.queuedIds, Actions.historyQueuedIds],
      by simp, by simp⟩
  · intro s q hwf hmem hex
    rcases hwf.2.2 q hmem with h | h | h
    · exact absurd (h.1.symm.trans hex) (by decide)
    · exact absurd (h.1.symm.trans hex) (by decide)
    · exact ⟨h.2.1, h.2.2.2.2, h.2.2.1, by rw [hex]; decide⟩
  · intro s now reason action_id a s' hnd hrej now2 mode env
    unfold Actions.reject at hrej
    cases hcase : Actions.rejectFirst now action_id reason s.pending with
    | none => rw [hcase] at hrej; simp at hrej
    | some p =>
      obtain ⟨a0, pend'⟩ := p
      rw [hcase] at hrej
      injection hrej with h1 h2
      subst h2
      have hnotin : action_id ∉ pend'.map Actions.QueuedAction.id :=
        rejectFirst_removes_id now action_id reason s.pending hnd a0 pend' hcase
      have happ : Actions.approveFirst now2 action_id pend' = none :=
        approveFirst_eq_none_of_not_mem now2 action_id pend' hnotin
      constructor
      · unfold Actions.approve
        dsimp only
        rw [happ]
      · unfold Actions.approve_action Actions.approve
        dsimp only
        rw [happ]

/-- Concrete instance of C5: a one-element well-formed queue is approved and
executed (yielding a well-formed state whose entry is executed-after-
approval), and in the reject scenario a later approval finds nothing and
executes nothing. -/
theorem c5_queue_state_machine_witness :
    Actions.QueueWF
      { pending := [{ id := "a1", created_at := "t0", status := "pending",
                      action := { type := "pause", campaign_id := some "c1" } }] } ∧
    Actions.opIdFresh (.approveById "approval_required" {} "t2" "a1")
      { pending := [{ id := "a1", created_at := "t0", status := "pending",
                      action := { type := "pause", campaign_id := some "c1" } }] } ∧
    (∃ s1, Actions.applyOp (.approveById "approval_required" {} "t2" "a1")
        { pending := [{ id := "a1", created_at := "t0", status := "pending",
                        action := { type := "pause", campaign_id := some "c1" } }] }
        = some s1 ∧ Actions.QueueWF s1) ∧
    ((([{ id := "a1", created_at := "t0", status := "pending",
          action := { type := "pause", campaign_id := some "c1" } }] :
        List Actions.QueuedAction).map Actions.QueuedAction.id).Nodup) ∧
    (∃ a s', Actions.reject "t1" "a1" "dup"
        { pending := [{ id := "a1", created_at := "t0", status := "pending",
                        action := { type := "pause", campaign_id := some "c1" } }] }
        = (some a, s') ∧
      ((Actions.approve "t2" "a1" s').1 = none ∧
       Actions.approve_action "approval_required" {} "t2" "a1" s' =
         some ({ success := false, executed := false,
                 message := .actionNotFound "a1" }, [], s'))) := by
  have hwf0 : Actions.QueueWF
      { pending := [{ id := "a1", created_at := "t0", status := "pending",
                      action := { type := "pause", campaign_id := some "c1" } }] } := by
    refine ⟨by simp [Actions.queuedIds, Actions.historyQueuedIds], ?_, by simp⟩
    intro q hq
    simp at hq
    subst hq
    exact ⟨rfl, rfl, rfl, rfl, rfl⟩
  refine ⟨hwf0, trivial, ⟨_, rfl, ?_⟩, by simp, _, _, rfl, ?_⟩
  · exact c5_queue_state_machine.2.1
      (.approveById "approval_required" {} "t2" "a1") _ _ hwf0 trivial rfl
  · exact c5_queue_state_machine.2.2.2
      { pending := [{ id := "a1", created_at := "t0", status := "pending",
                      action := { type := "pause", campaign_id := some "c1" } }] }
      "t1" "dup" "a1" _ _ (by simp) rfl "t2" "approval_required" {}

/-- C6: the direct-execution path builds its action with type
`budget_change`, and `_safety_check` only enforces the budget bounds for
type `budget_increase` — so the check passes vacuously.  At the failing
input (a direct change to ¥600,000, above the ¥500,000 bound) the safety
check passes, the ad-platform update call *is* made on a healthy
environment, the call succeeds, and the outcome is recorded to history —
where the claim (and the safety intent evident in the dead refusal branch
of the source) requires a refusal with no platform call. -/
theorem c6_direct_budget_change_skips_budget_bound :
    Actions.safety_check
      { type := "budget_change", account_id := some "a1", campaign_id := some "c1",
        params := { new_budget := some 600000 } } = none ∧
    (600000 : ℚ) > Actions.max_daily_budget ∧
    (Actions.execute_budget_change_direct {} "t0" "c1" 600000 "a1" {}).1.success = true ∧
    (Actions.execute_budget_change_direct {} "t0" "c1" 600000 "a1" {}).2.1 =
      [Actions.PlatformCall.updateBudget "c1" 600000] ∧
    (Actions.execute_budget_change_direct {} "t0" "c1" 600000 "a1" {}).2.2.history ≠ [] :=
  ⟨rfl, by norm_num [Actions.max_daily_budget], rfl, rfl, List.cons_ne_nil _ _⟩

/-- The periods of the C8 scenario: today spend ¥5,000, 80 follows,
cpf 62.5. -/
def c8periods : Monitor.Periods :=
  { today := { spend := 5000, follows := 80, cpf := 125/2 }
    last_7d := { cpf := 55 } }

/-- C8 counterexample: in the OUTCOME_TRAFFIC scenario (today
spend 5000, follows 80, cpf 62.5, target cpf 50) the judgment contains *no*
issue at all — cpf 62.5 is below the warning threshold 100, so no
"CPF注意"-class warning is produced, against the claimed single warning. -/
theorem c8_counterexample :
    (Monitor.make_integrated_judgment Monitor.outcomeTrafficConfig c8periods {}
      { target_cpf := some 50 }).issues = [] ∧
    Monitor.warningCount
      (Monitor.make_integrated_judgment Monitor.outcomeTrafficConfig c8periods {}
        { target_cpf := some 50 }).issues ≠ 1 := by
  have h : (Monitor.make_integrated_judgment Monitor.outcomeTrafficConfig c8periods {}
      { target_cpf := some 50 }).issues = [] := by
    norm_num [Monitor.make_integrated_judgment, Monitor.MIN_DAILY_SPEND,
      Monitor.kpiFindings, Monitor.cpfFindings, Monitor.commonFindings,
      Monitor.classify, Monitor.Findings.append, Monitor.outcomeTrafficConfig,
      c8periods]
  refine ⟨h, ?_⟩
  rw [h]
  simp [Monitor.warningCount]

/-- C8 corrected: in the OUTCOME_TRAFFIC scenario, cpf 62.5 lies in the gap
between the target (50) and the warning threshold (100), so the judgment
carries no issue (and the single positive for the 80 follows); whenever the
7-day-average cpf is positive, a comparison entry for cpf versus the 7-day
average is present, and the verdict is `opportunity`. -/
theorem c8_scenario_corrected (avg_7d : Monitor.Perf) (j : Monitor.Judgment)
    (h7 : avg_7d.cpf > 0)
    (hj : Monitor.make_integrated_judgment Monitor.outcomeTrafficConfig
      { today := { spend := 5000, follows := 80, cpf := 125/2 }, last_7d := avg_7d }
      {} { target_cpf := some 50 } = j) :
    j.issues = [] ∧
    j.positives = [.followsToday] ∧
    (∃ c ∈ j.comparisons, c.metric = "CPF" ∧ c.otherKey = "avg_7d" ∧
      c.today = 125/2 ∧ c.other = avg_7d.cpf) ∧
    j.status = "opportunity" := by
  subst hj
  rw [make_judgment_above_floor _ _ _ _ (by norm_num [Monitor.MIN_DAILY_SPEND])]
  dsimp only
  have hkpi : Monitor.kpiFindings Monitor.outcomeTrafficConfig
      ({ spend := 5000, follows := 80, cpf := 125/2 } : Monitor.Perf) {} avg_7d
      { target_cpf := some 50 } =
      { issues := [], positives := [.followsToday]
        comparisons := [{ metric := "CPF", today := 125/2, other := avg_7d.cpf,
                          otherKey := "avg_7d",
                          change_percent := (125/2 - avg_7d.cpf) / avg_7d.cpf * 100,
                          basis := some "vs7日平均" }] } := by
    norm_num [Monitor.kpiFindings, Monitor.cpfFindings, Monitor.outcomeTrafficConfig, h7]
  have hcommon : ∃ spendComps, Monitor.commonFindings Monitor.outcomeTrafficConfig
      ({ spend := 5000, follows := 80, cpf := 125/2 } : Monitor.Perf) {} avg_7d =
      { issues := [], positives := [], comparisons := spendComps } := by
    by_cases hs : avg_7d.spend > 0
    · refine ⟨[{ metric := "消化", today := 5000, other := avg_7d.spend, otherKey := "avg_7d", change_percent := (5000 - avg_7d.spend) / avg_7d.spend * 100, basis := some "vs7日平均" }], ?_⟩
      norm_num [Monitor.commonFindings, Monitor.outcomeTrafficConfig,
        Monitor.Findings.append, hs]
    · refine ⟨[], ?_⟩
      norm_num [Monitor.commonFindings, Monitor.outcomeTrafficConfig,
        Monitor.Findings.append, hs]
  obtain ⟨spendComps, hcommon⟩ := hcommon
  rw [hkpi, hcommon]
  refine ⟨?_, ?_, ?_, ?_⟩
  · simp [Monitor.classify, Monitor.Findings.append]
  · simp [Monitor.classify, Monitor.Findings.append]
  · refine ⟨{ metric := "CPF", today := 125/2, other := avg_7d.cpf,
              otherKey := "avg_7d",
              change_percent := (125/2 - avg_7d.cpf) / avg_7d.cpf * 100,
              basis := some "vs7日平均" }, ?_, rfl, rfl, rfl, rfl⟩
    simp [Monitor.classify, Monitor.Findings.append]
  · simp [Monitor.classify, Monitor.Findings.append, Monitor.criticalCount,
      Monitor.warningCount]

/-- Concrete instance of the corrected C8 with 7-day-average cpf 55. -/
theorem c8_scenario_corrected_witness :
    (({ cpf := 55 } : Monitor.Perf).cpf > 0) ∧
    ((Monitor.make_integrated_judgment Monitor.outcomeTrafficConfig c8periods {}
        { target_cpf := some 50 }).issues = [] ∧
     (Monitor.make_integrated_judgment Monitor.outcomeTrafficConfig c8periods {}
        { target_cpf := some 50 }).positives = [.followsToday] ∧
     (∃ c ∈ (Monitor.make_integrated_judgment Monitor.outcomeTrafficConfig c8periods {}
        { target_cpf := some 50 }).comparisons, c.metric = "CPF" ∧
          c.otherKey = "avg_7d" ∧ c.today = 125/2 ∧
          c.other = ({ cpf := 55 } : Monitor.Perf).cpf) ∧
     (Monitor.make_integrated_judgment Monitor.outcomeTrafficConfig c8periods {}
        { target_cpf := some 50 }).status = "opportunity") :=
  ⟨by norm_num,
   c8_scenario_corrected { cpf := 55 } _ (by norm_num) rfl⟩

/-- C9 counterexample: the reply text `[{}, {}, {}, {}]` parses to four
records and all four are returned to the caller — more than the claimed
bound of 3. -/
theorem c9_counterexample :
    Reco.generate_recommendations "[\x7b\x7d, \x7b\x7d, \x7b\x7d, \x7b\x7d]" =
      Reco.JVal.arr [.obj [], .obj [], .obj [], .obj []] ∧
    Reco.recommendationCount
      (Reco.generate_recommendations "[\x7b\x7d, \x7b\x7d, \x7b\x7d, \x7b\x7d]") = 4 ∧
    ¬ Reco.recommendationCount
      (Reco.generate_recommendations "[\x7b\x7d, \x7b\x7d, \x7b\x7d, \x7b\x7d]") ≤ 3 :=
  ⟨rfl, rfl, by decide⟩

/-- C9 corrected: the requester returns the parsed reply unchanged — the
"at most 3" bound is only requested in the prompt, never enforced: whenever
the extracted payload parses to a JSON array, the whole array is returned,
whatever its length; only a parse failure yields the empty list. -/
theorem c9_no_bound_on_recommendations (response_text : String)
    (l : List Reco.JVal)
    (h : Reco.jsonLoads (Reco.extract_json_str response_text) = some (.arr l)) :
    Reco.generate_recommendations response_text = .arr l ∧
    Reco.recommendationCount (Reco.generate_recommendations response_text) =
      l.length := by
  unfold Reco.generate_recommendations
  rw [h]
  exact ⟨rfl, rfl⟩

/-- Concrete instance of the corrected C9: a four-element reply is returned
whole. -/
theorem c9_no_bound_on_recommendations_witness :
    Reco.jsonLoads (Reco.extract_json_str "[\x7b\x7d, \x7b\x7d, \x7b\x7d, \x7b\x7d]") =
      some (.arr [.obj [], .obj [], .obj [], .obj []]) ∧
    (Reco.generate_recommendations "[\x7b\x7d, \x7b\x7d, \x7b\x7d, \x7b\x7d]" =
      Reco.JVal.arr [.obj [], .obj [], .obj [], .obj []] ∧
     Reco.recommendationCount
       (Reco.generate_recommendations "[\x7b\x7d, \x7b\x7d, \x7b\x7d, \x7b\x7d]") = 4) :=
  ⟨rfl, c9_no_bound_on_recommendations "[\x7b\x7d, \x7b\x7d, \x7b\x7d, \x7b\x7d]"
    [.obj [], .obj [], .obj [], .obj []] rfl⟩

/-- C10: the insight aggregation is a total function whose derived metrics
fall back to zero when their denominators are zero: no CTR/CPM without
impressions, no ROAS without spend, no CPA without conversions, no CPC/CVR
without clicks. -/
theorem c10_aggregation_zero_guards (rows : List Agent.InsightRow)
    (a : Agent.AggregatedPerf) (h : Agent.aggregate_insights rows = some a) :
    (a.impressions = 0 → a.ctr = 0 ∧ a.cpm = 0) ∧
    (a.spend = 0 → a.roas = 0) ∧
    (a.conversions = 0 → a.cpa = 0) ∧
    (a.clicks = 0 → a.cpc = 0 ∧ a.cvr = 0) := by
  by_cases hrows : rows = []
  · simp [Agent.aggregate_insights, hrows] at h
  · simp only [Agent.aggregate_insights, if_neg hrows, Option.some_inj] at h
    subst h
    refine ⟨?_, ?_, ?_, ?_⟩
    · intro h0
      simp only at h0
      constructor <;> simp [h0]
    · intro h0
      simp only at h0
      simp [h0]
    · intro h0
      simp only at h0
      simp [h0]
    · intro h0
      simp only at h0
      constructor <;> simp [h0]

/-- Concrete instance of the C10 zero guards: the all-zero single-row input
aggregates with every derived metric equal to zero. -/
theorem c10_aggregation_zero_guards_witness :
    ∃ a, Agent.aggregate_insights [{}] = some a ∧
      ((a.impressions = 0 → a.ctr = 0 ∧ a.cpm = 0) ∧
       (a.spend = 0 → a.roas = 0) ∧
       (a.conversions = 0 → a.cpa = 0) ∧
       (a.clicks = 0 → a.cpc = 0 ∧ a.cvr = 0)) :=
  ⟨_, rfl, c10_aggregation_zero_guards [{}] _ rfl⟩
